import Mathlib

/-!
Shallow embedding of the `valet_parking` thread-parking library.

The embedding targets a 64-bit little-endian platform (`usize` = 64 bits,
`UNCOMPARED_LO_BITS = 0`), the configuration the futex state machines in
`src/futex/mod.rs` are written for.  The pointer-sized atomic cell is a `Nat`
(values below `2 ^ 64`), the Parker's `AtomicI32` is an `Int`.

Blocking loops are embedded as fuel-indexed functions.  Two parameters model
the concurrent environment:
* `reasons : Nat → WakeupReason` — the reason the adapter `wait` call of each
  loop iteration reports (the source discards it, and so do the embeddings);
* `interf : Nat → Option _` — the value, if any, that other threads store into
  the atomic while the thread is blocked in the adapter `wait` of an iteration.

Running out of fuel means the function is still looping (still blocked); it is
distinct from returning.
-/

/-- `FREE_BITS` from src/src/lib.rs: the five user-owned high-order bits. -/
def FREE_BITS : Nat := 5

/-- Bit width of `usize` on the modelled 64-bit target. -/
def USIZE_BITS : Nat := 64

/-- `RESERVED_BITS = mem::size_of::<usize>() * 8 - FREE_BITS` (src/src/lib.rs). -/
def RESERVED_BITS : Nat := USIZE_BITS - FREE_BITS

/-- `RESERVED_MASK = (1 << RESERVED_BITS) - 1` (src/src/lib.rs). -/
def RESERVED_MASK : Nat := (1 <<< RESERVED_BITS) - 1

/-- The `usize` complement `!RESERVED_MASK` used by `compare_and_wait`. -/
def NOT_RESERVED_MASK : Nat := ((1 <<< USIZE_BITS) - 1) ^^^ RESERVED_MASK

/-- Rust `core::time::Duration`: whole seconds plus sub-second nanoseconds. -/
structure Duration where
  secs : Nat
  nanos : Nat
deriving DecidableEq

/-- Total length of a `Duration` in nanoseconds. -/
def durationNanos (d : Duration) : Nat := d.secs * 1000000000 + d.nanos

/-- `WakeupReason` from src/src/futex/mod.rs. -/
inductive WakeupReason
| NoMatch
| TimedOut
| Interrupt
| WokenUp
| Unknown
deriving DecidableEq

/-- Rust `as usize` on a signed integer: two's-complement reinterpretation. -/
def usizeOfInt (r : Int) : Nat := (r % (2 ^ 64 : Int)).toNat

namespace Futex

/-- `UNCOMPARED_LO_BITS` for a 64-bit little-endian target (src/src/futex/mod.rs). -/
def UNCOMPARED_LO_BITS : Nat := 0

/-- `HAS_WAITERS = 0x1 << UNCOMPARED_LO_BITS` (src/src/futex/mod.rs). -/
def HAS_WAITERS : Nat := 1 <<< UNCOMPARED_LO_BITS

/-- Outcome of a `compare_and_wait` run. `outOfFuel` means the function is
still looping; `panicked` is used by the `futex_like.rs` variant's assert. -/
inductive CawResult
| exited (finalCell : Nat)
| outOfFuel
| panicked
deriving DecidableEq

/-- The wait loop of `compare_and_wait` (src/src/futex/mod.rs lines 103-117).
Each iteration: the adapter `wait` returns (reason discarded, cell possibly
rewritten by other threads meanwhile), then the no-op
`compare_and_swap(expected | HAS_WAITERS, expected | HAS_WAITERS)` reads the
cell; the loop breaks when the value read differs from
`expected | HAS_WAITERS`.  Also returns the number of `wait` calls made. -/
def cawLoop (_reasons : Nat → WakeupReason) (interf : Nat → Option Nat)
    (expected : Nat) : Nat → Nat → CawResult × Nat
| _cell, 0 => (CawResult.outOfFuel, 0)
| cell, fuel+1 =>
  if (interf fuel).getD cell ≠ expected ||| HAS_WAITERS then
    (CawResult.exited ((interf fuel).getD cell), 1)
  else
    let r := cawLoop _reasons interf expected ((interf fuel).getD cell) fuel
    (r.1, r.2 + 1)

/-- `compare_and_wait` (src/src/futex/mod.rs lines 98-118): a
`compare_and_swap(expected, expected | HAS_WAITERS)` whose old value is
checked against `expected` on the free bits, then the wait loop. -/
def compare_and_wait (_reasons : Nat → WakeupReason) (interf : Nat → Option Nat)
    (expected cell : Nat) (fuel : Nat) : CawResult × Nat :=
  if cell &&& NOT_RESERVED_MASK ≠ expected then
    (CawResult.exited (if cell = expected then expected ||| HAS_WAITERS else cell), 0)
  else
    cawLoop _reasons interf expected
      (if cell = expected then expected ||| HAS_WAITERS else cell) fuel

/-- `store_and_wake` (src/src/futex/mod.rs lines 120-127): swap the cell to
`new` and call the adapter `wake` iff the old value had `HAS_WAITERS` set.
Returns the final cell value and whether `wake` was called. -/
def store_and_wake (cell new : Nat) : Nat × Bool :=
  (new, decide (cell &&& HAS_WAITERS = HAS_WAITERS))

/-- Parker state `NOT_PARKED = 0x0` (src/src/futex/mod.rs). -/
def NOT_PARKED : Int := 0

/-- Parker state `PARKED = 0x1` (src/src/futex/mod.rs). -/
def PARKED : Int := 1

/-- Parker state `NOTIFIED = 0x2` (src/src/futex/mod.rs). -/
def NOTIFIED : Int := 2

/-- Outcome of a `park` run: returned normally, panicked, or still looping. -/
inductive ParkResult
| normal
| panicked
| outOfFuel
deriving DecidableEq

/-- A `park` run: its outcome, the cell value when it ended, the number of
adapter `wait` calls made, and the sequence of values the cell took on
(park's own stores and the interference stores, in order). -/
structure ParkRun where
  result : ParkResult
  state : Int
  waits : Nat
  trace : List Int
deriving DecidableEq

/-- `park` (src/src/futex/mod.rs lines 177-198).  Each loop iteration:
`compare_exchange(NOT_PARKED, PARKED)` (on failure: `NOTIFIED` is consumed by
a store of `NOT_PARKED`, anything else panics), adapter `wait` (during which
`interf` may store a value), then `swap(NOT_PARKED)`; the loop breaks when
the swapped-out value is `NOTIFIED` or a timeout was supplied. -/
def park (_reasons : Nat → WakeupReason) (interf : Nat → Option Int)
    (timeout : Option Duration) : Int → Nat → ParkRun
| s, 0 => ⟨ParkResult.outOfFuel, s, 0, []⟩
| s, fuel+1 =>
  if s = NOT_PARKED then
    if (interf fuel).getD PARKED = NOTIFIED ∨ timeout.isSome = true then
      ⟨ParkResult.normal, NOT_PARKED, 1, PARKED :: (interf fuel).toList ++ [NOT_PARKED]⟩
    else
      let r := park _reasons interf timeout NOT_PARKED fuel
      ⟨r.result, r.state, r.waits + 1,
        PARKED :: (interf fuel).toList ++ NOT_PARKED :: r.trace⟩
  else if s = NOTIFIED then ⟨ParkResult.normal, NOT_PARKED, 0, [NOT_PARKED]⟩
  else ⟨ParkResult.panicked, s, 0, []⟩

/-- `unpark` (src/src/futex/mod.rs lines 200-204): swap the state to
`NOTIFIED`; call the adapter `wake` iff the old state was `PARKED`.
Returns the new state and whether `wake` was called. -/
def unpark (s : Int) : Int × Bool := (NOTIFIED, decide (s = PARKED))

end Futex

namespace ImpFutex

/-- The wait loop of `park` in src/src/imp/futex.rs (lines 72-85): adapter
`wait`, then return (storing `NOT_PARKED`) if a timeout was supplied, else
`compare_exchange(NOTIFIED, NOT_PARKED)` and break on success. -/
def parkLoop (_reasons : Nat → WakeupReason) (interf : Nat → Option Int)
    (timeout : Option Duration) : Int → Nat → Futex.ParkResult × Int
| cell, 0 => (Futex.ParkResult.outOfFuel, cell)
| cell, fuel+1 =>
  if timeout.isSome = true then (Futex.ParkResult.normal, Futex.NOT_PARKED)
  else if (interf fuel).getD cell = Futex.NOTIFIED then
    (Futex.ParkResult.normal, Futex.NOT_PARKED)
  else parkLoop _reasons interf timeout ((interf fuel).getD cell) fuel

/-- `park` from src/src/imp/futex.rs (lines 60-86): the entry
`compare_exchange(NOT_PARKED, PARKED)` (with the `NOTIFIED` consume path and
the panic path), then the wait loop. -/
def park (_reasons : Nat → WakeupReason) (interf : Nat → Option Int)
    (timeout : Option Duration) (s : Int) (fuel : Nat) : Futex.ParkResult × Int :=
  if s = Futex.NOT_PARKED then parkLoop _reasons interf timeout Futex.PARKED fuel
  else if s = Futex.NOTIFIED then (Futex.ParkResult.normal, Futex.NOT_PARKED)
  else (Futex.ParkResult.panicked, s)

end ImpFutex

namespace FutexLike

/-- The wait loop of `compare_and_wait` in src/src/futex_like.rs (lines
53-58): `futex_wait` then break when the loaded cell value differs from
`compare`.  `env` gives the cell value observed at each iteration's load. -/
def waitLoop (env : Nat → Nat) (compare : Nat) : Nat → Futex.CawResult
| 0 => Futex.CawResult.outOfFuel
| fuel+1 =>
  if env fuel ≠ compare then Futex.CawResult.exited (env fuel)
  else waitLoop env compare fuel

/-- `compare_and_wait` from src/src/futex_like.rs (lines 51-59): the entry
`assert_eq!(compare & RESERVED_MASK, 0)` (a panic when the reserved bits are
non-zero) followed by the wait loop. -/
def compare_and_wait (env : Nat → Nat) (compare : Nat) (fuel : Nat) : Futex.CawResult :=
  if compare &&& RESERVED_MASK ≠ 0 then Futex.CawResult.panicked
  else waitLoop env compare fuel

end FutexLike

namespace Lib

/-- The public `Waiters::compare_and_wait` for `AtomicUsize`
(src/src/lib.rs lines 172-175): forwards to the futex implementation with
`expected & !RESERVED_MASK`. -/
def compare_and_wait (_reasons : Nat → WakeupReason) (interf : Nat → Option Nat)
    (expected cell : Nat) (fuel : Nat) : Futex.CawResult × Nat :=
  Futex.compare_and_wait _reasons interf (expected &&& NOT_RESERVED_MASK) cell fuel

end Lib

/-- `u32::max_value()`. -/
def U32_MAX : Nat := 2 ^ 32 - 1

/-- `u64::max_value()`. -/
def U64_MAX : Nat := 2 ^ 64 - 1

/-- `i64::max_value()` (also `libc::time_t::max_value()` on 64-bit Linux). -/
def I64_MAX : Nat := 2 ^ 63 - 1

namespace Linux

/-- `libc::timespec` as filled in by `convert_timeout`: both fields are
non-negative here, so they are embedded as `Nat`. -/
structure Timespec where
  tv_sec : Nat
  tv_nsec : Nat
deriving DecidableEq

/-- Total nanoseconds a `Timespec` denotes. -/
def timespecNanos (ts : Timespec) : Nat := ts.tv_sec * 1000000000 + ts.tv_nsec

/-- `convert_timeout` (src/src/futex/linux.rs lines 97-110): `None` (passed to
the futex syscall as a null pointer, meaning wait indefinitely) when the
seconds overflow `time_t`, else `timespec { tv_sec, tv_nsec }`. -/
def convert_timeout : Option Duration → Option Timespec
| none => none
| some d => if d.secs > I64_MAX then none else some ⟨d.secs, d.nanos⟩

/-- The value `wake` returns (src/src/futex/linux.rs lines 54-70) as a
function of the futex syscall's return value `r : c_long`:
`cmp::max(r as usize, 0)`. -/
def wakeResult (r : Int) : Nat := max (usizeOfInt r) 0

end Linux

namespace Dragonfly

/-- The value `wake` returns (src/src/futex/dragonfly.rs lines 40-51) as a
function of `umtx_wakeup`'s return value `r : c_int`:
`cmp::max(r as usize, 0)` (the `c_int → usize` cast sign-extends, so it is
the same two's-complement reinterpretation). -/
def wakeResult (r : Int) : Nat := max (usizeOfInt r) 0

end Dragonfly

namespace Darwin

/-- `convert_timeout_us` (src/src/futex/darwin.rs lines 94-110): microseconds
with nanosecond remainders rounded up; `0` means wait indefinitely and is
also produced on every overflow.  The `checked_mul`/`checked_add` on `u64`
are embedded as explicit range tests on the exact values. -/
def convert_timeout_us : Option Duration → Nat
| none => 0
| some d =>
  if d.secs * 1000000 > U64_MAX then 0
  else if d.secs * 1000000 + (d.nanos + 999) / 1000 > U64_MAX then 0
  else if d.secs * 1000000 + (d.nanos + 999) / 1000 > U32_MAX then 0
  else d.secs * 1000000 + (d.nanos + 999) / 1000

/-- `wake` (src/src/futex/darwin.rs lines 46-61) always returns `Ok(0)`:
`ulock_wake` does not report the number of woken threads. -/
def wakeResult (_r : Int) : Nat := 0

end Darwin

namespace Windows

/-- `convert_timeout_100ns` (src/src/imp/windows.rs lines 214-228, identical
in src/src/windows.rs): NT 100-ns ticks, negative for a relative timeout,
nanosecond remainders rounded up; `None` (a null timeout pointer, meaning
wait indefinitely) on overflow.  The `i64` `checked_mul`/`checked_sub` are
embedded as explicit range tests: a product `-(secs * 10^7)` or difference
below `i64::MIN = -2^63` is an overflow. -/
def convert_timeout_100ns : Option Duration → Option Int
| none => none
| some d =>
  if d.secs > I64_MAX then none
  else if (d.secs : Int) * 10000000 > 2 ^ 63 then none
  else if (d.secs : Int) * 10000000 + ((d.nanos + 99) / 100 : Nat) > 2 ^ 63 then none
  else some (-((d.secs : Int) * 10000000) - ((d.nanos + 99) / 100 : Nat))

end Windows

/-- Spec-side value: a duration in microseconds, sub-microsecond remainders
rounded up ("Rounding is always up to the platform's granularity"). -/
def specRoundUpUs (d : Duration) : Nat := (durationNanos d + 999) / 1000

/-- Spec-side value: a duration in 100-ns ticks, remainders rounded up. -/
def specRoundUp100ns (d : Duration) : Nat := (durationNanos d + 99) / 100

/-- One operation of a client on a Parker cell: a `park` call (with its
timeout, its fuel, and the adapter wakeups and concurrent stores it sees
while blocked) or an `unpark` call. -/
inductive Op
| opPark (reasons : Nat → WakeupReason) (interf : Nat → Option Int)
    (timeout : Option Duration) (fuel : Nat)
| opUnpark

/-- Run one operation on the Parker cell: the resulting cell value and the
sequence of values the cell took on during the operation. -/
def runOp : Op → Int → Int × List Int
| Op.opPark reasons interf timeout fuel, s =>
  let r := Futex.park reasons interf timeout s fuel
  (r.state, r.trace)
| Op.opUnpark, s => ((Futex.unpark s).1, [Futex.NOTIFIED])

/-- Run a sequence of Parker operations, collecting every value the cell
takes on. -/
def runOps : List Op → Int → Int × List Int
| [], s => (s, [])
| op :: ops, s =>
  let r1 := runOp op s
  let r2 := runOps ops r1.1
  (r2.1, r1.2 ++ r2.2)

/-- The 2-bit Parker state is one of the three legal encodings. -/
def LegalState (v : Int) : Prop :=
  v = Futex.NOT_PARKED ∨ v = Futex.PARKED ∨ v = Futex.NOTIFIED

instance (v : Int) : Decidable (LegalState v) :=
  inferInstanceAs (Decidable (v = Futex.NOT_PARKED ∨ v = Futex.PARKED ∨ v = Futex.NOTIFIED))

/-- Interference that only concurrent `unpark` calls can produce: nothing,
or a store of `NOTIFIED`. -/
def okInterf (interf : Nat → Option Int) : Prop :=
  ∀ k, interf k = none ∨ interf k = some Futex.NOTIFIED

/-- An operation whose concurrent stores can only come from `unpark`. -/
def okOp : Op → Prop
| Op.opPark _ interf _ _ => okInterf interf
| Op.opUnpark => True

/-! ### Helper lemmas about the bit masks -/

theorem reservedMask_eq : RESERVED_MASK = 2 ^ 59 - 1 := by
  simp [RESERVED_MASK, RESERVED_BITS, USIZE_BITS, FREE_BITS, Nat.one_shiftLeft]

theorem notReservedMask_eq : NOT_RESERVED_MASK = (2 ^ 64 - 1) ^^^ (2 ^ 59 - 1) := by
  simp [NOT_RESERVED_MASK, reservedMask_eq, Nat.one_shiftLeft, USIZE_BITS]

theorem testBit_reservedMask (i : Nat) : RESERVED_MASK.testBit i = decide (i < 59) := by
  rw [reservedMask_eq]
  exact Nat.testBit_two_pow_sub_one 59 i

theorem testBit_notReservedMask (i : Nat) :
    NOT_RESERVED_MASK.testBit i = (decide (i < 64) ^^ decide (i < 59)) := by
  rw [notReservedMask_eq, Nat.testBit_xor, Nat.testBit_two_pow_sub_one,
    Nat.testBit_two_pow_sub_one]

theorem land_notReserved_of_reservedZero (e : Nat) (hlt : e < 2 ^ 64)
    (h0 : e &&& RESERVED_MASK = 0) : e &&& NOT_RESERVED_MASK = e := by
  apply Nat.eq_of_testBit_eq
  intro i
  rw [Nat.testBit_land, testBit_notReservedMask]
  cases hb : e.testBit i with
  | false => simp
  | true =>
    have h59 : ¬ i < 59 := by
      intro hi
      have hz := congrArg (fun n => n.testBit i) h0
      simp [Nat.testBit_land, hb, testBit_reservedMask, hi, Nat.zero_testBit] at hz
    have h64 : i < 64 := by
      by_contra hge
      push_neg at hge
      have hf : e.testBit i = false :=
        Nat.testBit_lt_two_pow (lt_of_lt_of_le hlt (Nat.pow_le_pow_right (by norm_num) hge))
      simp [hb] at hf
    simp [h59, h64]

theorem land_notReserved_land_reserved (v : Nat) :
    (v &&& NOT_RESERVED_MASK) &&& RESERVED_MASK = 0 := by
  apply Nat.eq_of_testBit_eq
  intro i
  rw [Nat.testBit_land, Nat.testBit_land, testBit_notReservedMask, testBit_reservedMask,
    Nat.zero_testBit]
  by_cases h : i < 59
  · have h2 : i < 64 := by omega
    simp [h, h2]
  · simp [h]

/-! ### Loop behaviour under spurious wakeups (C1) -/

theorem cawLoop_unchanged (reasons : Nat → WakeupReason) (expected : Nat) :
    ∀ fuel, Futex.cawLoop reasons (fun _ => none) expected (expected ||| Futex.HAS_WAITERS) fuel
      = (Futex.CawResult.outOfFuel, fuel) := by
  intro fuel
  induction fuel with
  | zero => rfl
  | succ n ih => simp [Futex.cawLoop, ih]

theorem park_unchanged (reasons : Nat → WakeupReason) :
    ∀ fuel, (Futex.park reasons (fun _ => none) none Futex.NOT_PARKED fuel).result
        = Futex.ParkResult.outOfFuel
      ∧ (Futex.park reasons (fun _ => none) none Futex.NOT_PARKED fuel).waits = fuel := by
  intro fuel
  induction fuel with
  | zero => exact ⟨rfl, rfl⟩
  | succ n ih =>
    constructor
    · simp [Futex.park, (by decide : ¬ (Futex.PARKED = Futex.NOTIFIED)), ih.1]
    · simp [Futex.park, (by decide : ¬ (Futex.PARKED = Futex.NOTIFIED)), ih.2]

/-- C1: if the adapter `wait` returns (with any reason, e.g. `Unknown`) while
the cell still equals `expected | HAS_WAITERS`, `compare_and_wait` does not
return but waits again; likewise `park` with no timeout, if `wait` returns
while the state is still `PARKED`, loops and waits again.  Quantified over
every sequence of adapter wakeup reasons that leaves the atomic unchanged:
neither function exits for any amount of fuel, and each performs exactly one
adapter `wait` per loop iteration. -/
theorem spurious_wakeup_loops_forever (reasons : Nat → WakeupReason)
    (expected : Nat) (fuel : Nat)
    (hres : expected &&& RESERVED_MASK = 0) (hlt : expected < 2 ^ 64) :
    Futex.cawLoop reasons (fun _ => none) expected (expected ||| Futex.HAS_WAITERS) fuel
        = (Futex.CawResult.outOfFuel, fuel)
      ∧ Futex.compare_and_wait reasons (fun _ => none) expected expected fuel
        = (Futex.CawResult.outOfFuel, fuel)
      ∧ (Futex.park reasons (fun _ => none) none Futex.NOT_PARKED fuel).result
        = Futex.ParkResult.outOfFuel
      ∧ (Futex.park reasons (fun _ => none) none Futex.NOT_PARKED fuel).waits = fuel := by
  refine ⟨cawLoop_unchanged reasons expected fuel, ?_,
    (park_unchanged reasons fuel).1, (park_unchanged reasons fuel).2⟩
  simp [Futex.compare_and_wait, land_notReserved_of_reservedZero expected hlt hres,
    cawLoop_unchanged reasons expected fuel]

/-- Witness for C1 at `expected = 0`, `fuel = 1`. -/
theorem spurious_wakeup_loops_forever_witness :
    (0 : Nat) &&& RESERVED_MASK = 0 ∧ (0 : Nat) < 2 ^ 64 ∧
    Futex.cawLoop (fun _ => WakeupReason.Unknown) (fun _ => none) 0 (0 ||| Futex.HAS_WAITERS) 1
        = (Futex.CawResult.outOfFuel, 1) ∧
    (Futex.park (fun _ => WakeupReason.Unknown) (fun _ => none) none Futex.NOT_PARKED 1).waits = 1 :=
  have h := spurious_wakeup_loops_forever (fun _ => WakeupReason.Unknown) 0 1
    (by decide) (by norm_num)
  ⟨by decide, by norm_num, h.1, h.2.2.2⟩

/-! ### Park always resets the state to NOT_PARKED on normal return (C2) -/

theorem park_normal_state (reasons : Nat → WakeupReason) (interf : Nat → Option Int)
    (timeout : Option Duration) :
    ∀ fuel s, (Futex.park reasons interf timeout s fuel).result = Futex.ParkResult.normal →
      (Futex.park reasons interf timeout s fuel).state = Futex.NOT_PARKED := by
  intro fuel
  induction fuel with
  | zero =>
    intro s h
    exact absurd h (by simp [Futex.park])
  | succ n ih =>
    intro s h
    by_cases hs : s = Futex.NOT_PARKED
    · subst hs
      by_cases hc : (interf n).getD Futex.PARKED = Futex.NOTIFIED ∨ timeout.isSome = true
      · simp [Futex.park, hc]
      · simp only [Futex.park, if_pos rfl, if_neg hc] at h ⊢
        exact ih Futex.NOT_PARKED h
    · by_cases hs2 : s = Futex.NOTIFIED
      · simp [Futex.park, hs, hs2, (by decide : ¬ (Futex.NOTIFIED = Futex.NOT_PARKED))]
      · exact absurd h (by simp [Futex.park, hs, hs2])

theorem impParkLoop_normal_state (reasons : Nat → WakeupReason) (interf : Nat → Option Int)
    (timeout : Option Duration) :
    ∀ fuel cell,
      (ImpFutex.parkLoop reasons interf timeout cell fuel).1 = Futex.ParkResult.normal →
      (ImpFutex.parkLoop reasons interf timeout cell fuel).2 = Futex.NOT_PARKED := by
  intro fuel
  induction fuel with
  | zero =>
    intro cell h
    exact absurd h (by simp [ImpFutex.parkLoop])
  | succ n ih =>
    intro cell h
    by_cases ht : timeout.isSome = true
    · simp [ImpFutex.parkLoop, ht]
    · by_cases hc : (interf n).getD cell = Futex.NOTIFIED
      · simp [ImpFutex.parkLoop, ht, hc]
      · simp only [ImpFutex.parkLoop, if_neg ht, if_neg hc] at h ⊢
        exact ih ((interf n).getD cell) h

/-- C2: for every timeout argument, every initial state and every sequence of
adapter wakeups and concurrent stores, whenever `park` returns normally (the
immediate-notified path, the timeout path and the woken path alike) the
Parker state equals `NOT_PARKED` on return — for the `futex/mod.rs` `park`
and for the `imp/futex.rs` variant. -/
theorem park_returns_not_parked (reasons : Nat → WakeupReason) (interf : Nat → Option Int)
    (timeout : Option Duration) (s : Int) (fuel : Nat) :
    ((Futex.park reasons interf timeout s fuel).result = Futex.ParkResult.normal →
      (Futex.park reasons interf timeout s fuel).state = Futex.NOT_PARKED)
    ∧ ((ImpFutex.park reasons interf timeout s fuel).1 = Futex.ParkResult.normal →
      (ImpFutex.park reasons interf timeout s fuel).2 = Futex.NOT_PARKED) := by
  constructor
  · exact park_normal_state reasons interf timeout fuel s
  · intro h
    by_cases hs : s = Futex.NOT_PARKED
    · simp only [ImpFutex.park, if_pos hs] at h ⊢
      exact impParkLoop_normal_state reasons interf timeout fuel Futex.PARKED h
    · by_cases hs2 : s = Futex.NOTIFIED
      · simp [ImpFutex.park, hs, hs2, (by decide : ¬ (Futex.NOTIFIED = Futex.NOT_PARKED))]
      · exact absurd h (by simp [ImpFutex.park, hs, hs2])

/-- Witness for C2: a parker notified before parking returns with state
`NOT_PARKED`, in both embeddings. -/
theorem park_returns_not_parked_witness :
    (Futex.park (fun _ => WakeupReason.Unknown) (fun _ => none) none Futex.NOTIFIED 1).state
        = Futex.NOT_PARKED
    ∧ (ImpFutex.park (fun _ => WakeupReason.Unknown) (fun _ => none) none Futex.NOTIFIED 1).2
        = Futex.NOT_PARKED :=
  ⟨(park_returns_not_parked (fun _ => WakeupReason.Unknown) (fun _ => none) none
      Futex.NOTIFIED 1).1 (by decide),
   (park_returns_not_parked (fun _ => WakeupReason.Unknown) (fun _ => none) none
      Futex.NOTIFIED 1).2 (by decide)⟩

/-- C3: `store_and_wake(new)` leaves the atomic bitwise equal to `new`, and
calls the adapter `wake` iff the replaced value had the `HAS_WAITERS` bit
(bit 0 on this target) set; in particular a cell with no waiters causes no
wake call. -/
theorem store_and_wake_stores_and_wakes (cell new : Nat) :
    (Futex.store_and_wake cell new).1 = new
    ∧ ((Futex.store_and_wake cell new).2 = true ↔ cell.testBit 0 = true)
    ∧ (cell.testBit 0 = false → (Futex.store_and_wake cell new).2 = false) := by
  have hb : (Futex.store_and_wake cell new).2 = decide (cell % 2 = 1) := by
    simp only [Futex.store_and_wake]
    rw [show Futex.HAS_WAITERS = 1 from rfl, Nat.and_one_is_mod]
  have ht : cell.testBit 0 = decide (cell % 2 = 1) := Nat.testBit_zero cell
  refine ⟨rfl, ?_, ?_⟩
  · rw [hb, ht]
  · intro h0
    rw [hb]
    rw [ht] at h0
    simpa using h0

/-- C4: `unpark` followed by another `unpark` with no `park` in between:
both swaps store `NOTIFIED`, the second finds the state already `NOTIFIED`
and performs no adapter wake, and a subsequent `park` returns immediately
(normally, with zero adapter `wait` calls), leaving the state `NOT_PARKED`. -/
theorem unpark_idempotent_park_immediate (s : Int) (reasons : Nat → WakeupReason)
    (interf : Nat → Option Int) (timeout : Option Duration) (fuel : Nat) :
    (Futex.unpark s).1 = Futex.NOTIFIED
    ∧ (Futex.unpark (Futex.unpark s).1).1 = Futex.NOTIFIED
    ∧ (Futex.unpark (Futex.unpark s).1).2 = false
    ∧ (Futex.park reasons interf timeout (Futex.unpark (Futex.unpark s).1).1 (fuel+1)).result
        = Futex.ParkResult.normal
    ∧ (Futex.park reasons interf timeout (Futex.unpark (Futex.unpark s).1).1 (fuel+1)).waits = 0
    ∧ (Futex.park reasons interf timeout (Futex.unpark (Futex.unpark s).1).1 (fuel+1)).state
        = Futex.NOT_PARKED := by
  refine ⟨rfl, rfl, by simp [Futex.unpark, Futex.NOTIFIED, Futex.PARKED], ?_, ?_, ?_⟩
  all_goals
    simp [Futex.park, Futex.unpark, (by decide : ¬ (Futex.NOTIFIED = Futex.NOT_PARKED))]

/-! ### Step equations for `park`, and the Parker state invariant (C5) -/

theorem park_zero (reasons : Nat → WakeupReason) (interf : Nat → Option Int)
    (timeout : Option Duration) (s : Int) :
    Futex.park reasons interf timeout s 0 = ⟨Futex.ParkResult.outOfFuel, s, 0, []⟩ := rfl

theorem park_succ_exit (reasons : Nat → WakeupReason) (interf : Nat → Option Int)
    (timeout : Option Duration) (fuel : Nat)
    (hc : (interf fuel).getD Futex.PARKED = Futex.NOTIFIED ∨ timeout.isSome = true) :
    Futex.park reasons interf timeout Futex.NOT_PARKED (fuel+1)
      = ⟨Futex.ParkResult.normal, Futex.NOT_PARKED, 1,
          Futex.PARKED :: (interf fuel).toList ++ [Futex.NOT_PARKED]⟩ := by
  unfold Futex.park
  rw [if_pos rfl, if_pos hc]

theorem park_succ_loop (reasons : Nat → WakeupReason) (interf : Nat → Option Int)
    (timeout : Option Duration) (fuel : Nat)
    (hc : ¬ ((interf fuel).getD Futex.PARKED = Futex.NOTIFIED ∨ timeout.isSome = true)) :
    Futex.park reasons interf timeout Futex.NOT_PARKED (fuel+1)
      = ⟨(Futex.park reasons interf timeout Futex.NOT_PARKED fuel).result,
         (Futex.park reasons interf timeout Futex.NOT_PARKED fuel).state,
         (Futex.park reasons interf timeout Futex.NOT_PARKED fuel).waits + 1,
         Futex.PARKED :: (interf fuel).toList ++ Futex.NOT_PARKED ::
           (Futex.park reasons interf timeout Futex.NOT_PARKED fuel).trace⟩ := by
  conv_lhs => rw [Futex.park]
  rw [if_pos rfl, if_neg hc]

theorem park_succ_notified (reasons : Nat → WakeupReason) (interf : Nat → Option Int)
    (timeout : Option Duration) (fuel : Nat) :
    Futex.park reasons interf timeout Futex.NOTIFIED (fuel+1)
      = ⟨Futex.ParkResult.normal, Futex.NOT_PARKED, 0, [Futex.NOT_PARKED]⟩ := by
  unfold Futex.park
  rw [if_neg (by decide : ¬ (Futex.NOTIFIED = Futex.NOT_PARKED)), if_pos rfl]

theorem park_succ_panicked (reasons : Nat → WakeupReason) (interf : Nat → Option Int)
    (timeout : Option Duration) (fuel : Nat) (s : Int)
    (h0 : ¬ s = Futex.NOT_PARKED) (h2 : ¬ s = Futex.NOTIFIED) :
    Futex.park reasons interf timeout s (fuel+1)
      = ⟨Futex.ParkResult.panicked, s, 0, []⟩ := by
  unfold Futex.park
  rw [if_neg h0, if_neg h2]

theorem park_trace_legal (reasons : Nat → WakeupReason) (interf : Nat → Option Int)
    (timeout : Option Duration) (hok : okInterf interf) :
    ∀ fuel s, LegalState s →
      (∀ v ∈ (Futex.park reasons interf timeout s fuel).trace, LegalState v)
      ∧ LegalState (Futex.park reasons interf timeout s fuel).state := by
  intro fuel
  induction fuel with
  | zero =>
    intro s hs
    rw [park_zero]
    exact ⟨fun v hv => absurd hv (List.not_mem_nil v), hs⟩
  | succ n ih =>
    intro s hs
    by_cases h0 : s = Futex.NOT_PARKED
    · subst h0
      by_cases hc : (interf n).getD Futex.PARKED = Futex.NOTIFIED ∨ timeout.isSome = true
      · rw [park_succ_exit reasons interf timeout n hc]
        refine ⟨?_, Or.inl rfl⟩
        intro v hv
        simp only [List.cons_append, List.mem_cons, List.mem_append,
          List.not_mem_nil, or_false] at hv
        rcases hv with hv | hv | hv
        · exact Or.inr (Or.inl hv)
        · rcases hok n with hin | hin <;> rw [hin] at hv
          · exact absurd hv (List.not_mem_nil v)
          · rw [Option.toList_some, List.mem_singleton] at hv
            exact Or.inr (Or.inr hv)
        · exact Or.inl hv
      · rw [park_succ_loop reasons interf timeout n hc]
        have hrec := ih Futex.NOT_PARKED (Or.inl rfl)
        refine ⟨?_, hrec.2⟩
        intro v hv
        simp only [List.cons_append, List.mem_cons, List.mem_append] at hv
        rcases hv with hv | hv | hv | hv
        · exact Or.inr (Or.inl hv)
        · rcases hok n with hin | hin <;> rw [hin] at hv
          · exact absurd hv (List.not_mem_nil v)
          · rw [Option.toList_some, List.mem_singleton] at hv
            exact Or.inr (Or.inr hv)
        · exact Or.inl hv
        · exact hrec.1 v hv
    · by_cases h2 : s = Futex.NOTIFIED
      · subst h2
        rw [park_succ_notified reasons interf timeout n]
        refine ⟨?_, Or.inl rfl⟩
        intro v hv
        rw [List.mem_singleton] at hv
        exact Or.inl hv
      · rw [park_succ_panicked reasons interf timeout n s h0 h2]
        exact ⟨fun v hv => absurd hv (List.not_mem_nil v), hs⟩

theorem runOps_legal (ops : List Op) (hops : ∀ op ∈ ops, okOp op) :
    ∀ s, LegalState s →
      (∀ v ∈ (runOps ops s).2, LegalState v) ∧ LegalState (runOps ops s).1 := by
  induction ops with
  | nil =>
    intro s hs
    exact ⟨by simp [runOps], by simpa [runOps] using hs⟩
  | cons op ops ih =>
    intro s hs
    have hop : okOp op := hops op (by simp)
    have hops2 : ∀ o ∈ ops, okOp o := fun o ho => hops o (by simp [ho])
    have h1 : (∀ v ∈ (runOp op s).2, LegalState v) ∧ LegalState (runOp op s).1 := by
      cases op with
      | opPark reasons interf timeout fuel =>
        exact park_trace_legal reasons interf timeout hop fuel s hs
      | opUnpark =>
        refine ⟨?_, Or.inr (Or.inr rfl)⟩
        intro v hv
        simp [runOp] at hv
        subst hv
        exact Or.inr (Or.inr rfl)
    constructor
    · intro v hv
      simp only [runOps, List.mem_append] at hv
      rcases hv with hv | hv
      · exact h1.1 v hv
      · exact (ih hops2 (runOp op s).1 h1.2).1 v hv
    · exact (ih hops2 (runOp op s).1 h1.2).2

/-- C5: starting from the initial state `0` (`NOT_PARKED`), every value the
Parker cell takes on during any sequence of `park` and `unpark` operations
(with concurrent stores restricted to what `unpark` can produce) is one of
`NOT_PARKED`, `PARKED`, `NOTIFIED`; the fourth encoding is never stored, and
the state between operations stays legal. -/
theorem parker_state_invariant (ops : List Op) (hops : ∀ op ∈ ops, okOp op) :
    (∀ v ∈ (runOps ops Futex.NOT_PARKED).2, LegalState v)
    ∧ LegalState (runOps ops Futex.NOT_PARKED).1 :=
  runOps_legal ops hops Futex.NOT_PARKED (Or.inl rfl)

/-- Witness for C5 on the sequence [unpark, park]. -/
theorem parker_state_invariant_witness :
    (∀ v ∈ (runOps [Op.opUnpark,
          Op.opPark (fun _ => WakeupReason.Unknown) (fun _ => none) none 1]
        Futex.NOT_PARKED).2, LegalState v)
    ∧ LegalState (runOps [Op.opUnpark,
          Op.opPark (fun _ => WakeupReason.Unknown) (fun _ => none) none 1]
        Futex.NOT_PARKED).1 :=
  parker_state_invariant _ (by
    intro op hop
    simp only [List.mem_cons, List.not_mem_nil, or_false] at hop
    rcases hop with h | h
    · subst h; trivial
    · subst h
      intro k
      exact Or.inl rfl)

/-! ### Park panics exactly when the state is PARKED (C6) -/

theorem park_from_not_parked_no_panic (reasons : Nat → WakeupReason)
    (interf : Nat → Option Int) (timeout : Option Duration) :
    ∀ fuel, (Futex.park reasons interf timeout Futex.NOT_PARKED fuel).result
      ≠ Futex.ParkResult.panicked := by
  intro fuel
  induction fuel with
  | zero => simp [Futex.park]
  | succ n ih =>
    by_cases hc : (interf n).getD Futex.PARKED = Futex.NOTIFIED ∨ timeout.isSome = true
    · simp [Futex.park, hc]
    · simpa only [Futex.park, if_pos rfl, if_neg hc] using ih

theorem impParkLoop_no_panic (reasons : Nat → WakeupReason)
    (interf : Nat → Option Int) (timeout : Option Duration) :
    ∀ fuel cell, (ImpFutex.parkLoop reasons interf timeout cell fuel).1
      ≠ Futex.ParkResult.panicked := by
  intro fuel
  induction fuel with
  | zero => intro cell; simp [ImpFutex.parkLoop]
  | succ n ih =>
    intro cell
    by_cases ht : timeout.isSome = true
    · simp [ImpFutex.parkLoop, ht]
    · by_cases hc : (interf n).getD cell = Futex.NOTIFIED
      · simp [ImpFutex.parkLoop, ht, hc]
      · simpa only [ImpFutex.parkLoop, if_neg ht, if_neg hc] using ih ((interf n).getD cell)

/-- C6: on a legal Parker state, `park` panics exactly when the state is
`PARKED` (another thread already parked); from `NOT_PARKED` or `NOTIFIED` it
never panics — for the `futex/mod.rs` `park` (given at least one step of
fuel so the entry CAS runs) and the `imp/futex.rs` variant. -/
theorem park_panics_iff_parked (reasons : Nat → WakeupReason) (interf : Nat → Option Int)
    (timeout : Option Duration) (s : Int) (fuel : Nat) (hs : LegalState s) :
    ((Futex.park reasons interf timeout s (fuel+1)).result = Futex.ParkResult.panicked
      ↔ s = Futex.PARKED)
    ∧ ((ImpFutex.park reasons interf timeout s fuel).1 = Futex.ParkResult.panicked
      ↔ s = Futex.PARKED) := by
  rcases hs with h | h | h <;> subst h
  · constructor
    · exact iff_of_false
        (by
          have hstep : Futex.park reasons interf timeout Futex.NOT_PARKED (fuel+1)
              = Futex.park reasons interf timeout Futex.NOT_PARKED (fuel+1) := rfl
          exact park_from_not_parked_no_panic reasons interf timeout (fuel+1))
        (by decide)
    · exact iff_of_false
        (by
          simp only [ImpFutex.park, if_pos rfl]
          exact impParkLoop_no_panic reasons interf timeout fuel Futex.PARKED)
        (by decide)
  · constructor
    · exact iff_of_true
        (by rw [park_succ_panicked reasons interf timeout fuel Futex.PARKED
          (by decide) (by decide)]) rfl
    · exact iff_of_true
        (by
          unfold ImpFutex.park
          rw [if_neg (by decide : ¬ (Futex.PARKED = Futex.NOT_PARKED)),
            if_neg (by decide : ¬ (Futex.PARKED = Futex.NOTIFIED))]) rfl
  · constructor
    · exact iff_of_false
        (by simp [Futex.park, (by decide : ¬ (Futex.NOTIFIED = Futex.NOT_PARKED))])
        (by decide)
    · exact iff_of_false
        (by simp [ImpFutex.park, (by decide : ¬ (Futex.NOTIFIED = Futex.NOT_PARKED))])
        (by decide)

/-- Witness for C6 at `s = PARKED`: both embeddings panic. -/
theorem park_panics_iff_parked_witness :
    (Futex.park (fun _ => WakeupReason.Unknown) (fun _ => none) none Futex.PARKED 1).result
        = Futex.ParkResult.panicked
    ∧ (ImpFutex.park (fun _ => WakeupReason.Unknown) (fun _ => none) none Futex.PARKED 0).1
        = Futex.ParkResult.panicked :=
  ⟨((park_panics_iff_parked (fun _ => WakeupReason.Unknown) (fun _ => none) none
      Futex.PARKED 0 (Or.inr (Or.inl rfl))).1).mpr rfl,
   ((park_panics_iff_parked (fun _ => WakeupReason.Unknown) (fun _ => none) none
      Futex.PARKED 0 (Or.inr (Or.inl rfl))).2).mpr rfl⟩

/-! ### Zero timeout (C7) -/

/-- C7: `park` with a zero timeout does NOT panic anywhere in the code: the
`futex/mod.rs` `park` returns normally through the timeout path (there is no
zero check), and the Darwin adapter even converts a zero `Duration` to `0`,
the `ulock_wait` encoding for "wait indefinitely" — exactly the value a
`None` timeout produces.  This contradicts the documented contract
(`src/src/lib.rs` line 209: "`park` panics if the timeout is 0."). -/
theorem park_zero_timeout_no_panic :
    (Futex.park (fun _ => WakeupReason.TimedOut) (fun _ => none) (some ⟨0, 0⟩)
        Futex.NOT_PARKED 1).result = Futex.ParkResult.normal
    ∧ (Futex.park (fun _ => WakeupReason.TimedOut) (fun _ => none) (some ⟨0, 0⟩)
        Futex.NOT_PARKED 1).result ≠ Futex.ParkResult.panicked
    ∧ Darwin.convert_timeout_us (some ⟨0, 0⟩) = 0
    ∧ Darwin.convert_timeout_us none = 0 :=
  ⟨by decide, by decide, by decide, rfl⟩

/-! ### Reserved bits passed to compare_and_wait (C8) -/

/-- C8: `compare_and_wait(v)` with non-zero reserved bits panics in the
`futex_like.rs` implementation (its `assert_eq!(compare & RESERVED_MASK, 0)`),
for every environment and fuel; and the public `Waiters` impl in
`src/src/lib.rs` rejects the reserved bits by passing
`expected & !RESERVED_MASK` — a value whose reserved bits are all zero — to
the backend. -/
theorem compare_and_wait_reserved_bits_guard (v : Nat) (env : Nat → Nat)
    (reasons : Nat → WakeupReason) (interf : Nat → Option Nat) (cell fuel fuel2 : Nat)
    (h : v &&& RESERVED_MASK ≠ 0) :
    FutexLike.compare_and_wait env v fuel = Futex.CawResult.panicked
    ∧ Lib.compare_and_wait reasons interf v cell fuel2
        = Futex.compare_and_wait reasons interf (v &&& NOT_RESERVED_MASK) cell fuel2
    ∧ (v &&& NOT_RESERVED_MASK) &&& RESERVED_MASK = 0 :=
  ⟨by simp [FutexLike.compare_and_wait, h], rfl, land_notReserved_land_reserved v⟩

/-- Witness for C8 at `v = 1` (lowest reserved bit set). -/
theorem compare_and_wait_reserved_bits_guard_witness :
    (1 : Nat) &&& RESERVED_MASK ≠ 0
    ∧ FutexLike.compare_and_wait (fun _ => 0) 1 0 = Futex.CawResult.panicked :=
  ⟨by decide,
   (compare_and_wait_reserved_bits_guard 1 (fun _ => 0) (fun _ => WakeupReason.Unknown)
      (fun _ => none) 0 0 0 (by decide)).1⟩

/-! ### Timeout conversions round up and saturate to "no timeout" (C9) -/

theorem us_round_up_eq (s ns : Nat) :
    s * 1000000 + (ns + 999) / 1000 = (s * 1000000000 + ns + 999) / 1000 := by
  have h : s * 1000000000 + ns + 999 = ns + 999 + 1000 * (s * 1000000) := by ring
  rw [h, Nat.add_mul_div_left _ _ (by norm_num : (0:Nat) < 1000), Nat.add_comm]

theorem ticks_round_up_eq (s ns : Nat) :
    s * 10000000 + (ns + 99) / 100 = (s * 1000000000 + ns + 99) / 100 := by
  have h : s * 1000000000 + ns + 99 = ns + 99 + 100 * (s * 10000000) := by ring
  rw [h, Nat.add_mul_div_left _ _ (by norm_num : (0:Nat) < 100), Nat.add_comm]

theorem linux_convert_eq (d : Duration) :
    (Linux.convert_timeout (some d)).map Linux.timespecNanos
      = if d.secs > I64_MAX then none else some (durationNanos d) := by
  by_cases h : d.secs > I64_MAX
  · simp [Linux.convert_timeout, h]
  · simp [Linux.convert_timeout, h, Linux.timespecNanos, durationNanos]

theorem darwin_convert_eq (d : Duration) :
    Darwin.convert_timeout_us (some d)
      = if specRoundUpUs d > U32_MAX then 0 else specRoundUpUs d := by
  have key : specRoundUpUs d = d.secs * 1000000 + (d.nanos + 999) / 1000 := by
    unfold specRoundUpUs durationNanos
    rw [← us_round_up_eq]
  rw [key]
  simp only [Darwin.convert_timeout_us]
  by_cases h1 : d.secs * 1000000 > U64_MAX
  · rw [if_pos h1, if_pos (by
      simp only [U64_MAX, U32_MAX] at h1 ⊢
      have := Nat.le_add_right (d.secs * 1000000) ((d.nanos + 999) / 1000)
      omega)]
  · rw [if_neg h1]
    by_cases h2 : d.secs * 1000000 + (d.nanos + 999) / 1000 > U64_MAX
    · rw [if_pos h2, if_pos (by
        simp only [U64_MAX, U32_MAX] at h2 ⊢
        have h64 : (18446744073709551615 : Nat) = 2 ^ 64 - 1 := by norm_num
        omega)]
    · rw [if_neg h2]

theorem windows_convert_eq (d : Duration) :
    Windows.convert_timeout_100ns (some d)
      = if specRoundUp100ns d ≤ 2 ^ 63 then some (-(specRoundUp100ns d : Int)) else none := by
  have key : specRoundUp100ns d = d.secs * 10000000 + (d.nanos + 99) / 100 := by
    unfold specRoundUp100ns durationNanos
    rw [← ticks_round_up_eq]
  simp only [Windows.convert_timeout_100ns]
  by_cases h1 : d.secs > I64_MAX
  · rw [if_pos h1, if_neg (by
      rw [key]
      simp only [I64_MAX] at h1
      have hp : (2:Nat) ^ 63 ≤ d.secs := by omega
      have hm : d.secs ≤ d.secs * 10000000 := Nat.le_mul_of_pos_right _ (by norm_num)
      have := Nat.le_add_right (d.secs * 10000000) ((d.nanos + 99) / 100)
      omega)]
  · rw [if_neg h1]
    by_cases h2 : d.secs * 10000000 > 2 ^ 63
    · have h2i : (d.secs : Int) * 10000000 > 2 ^ 63 := by exact_mod_cast h2
      rw [if_pos h2i, if_neg (by
        rw [key]
        have := Nat.le_add_right (d.secs * 10000000) ((d.nanos + 99) / 100)
        omega)]
    · have h2i : ¬ (d.secs : Int) * 10000000 > 2 ^ 63 := by exact_mod_cast h2
      rw [if_neg h2i]
      by_cases h3 : d.secs * 10000000 + (d.nanos + 99) / 100 > 2 ^ 63
      · have h3i : (d.secs : Int) * 10000000 + (((d.nanos + 99) / 100 : Nat) : Int) > 2 ^ 63 := by
          exact_mod_cast h3
        rw [if_pos h3i, if_neg (by rw [key]; omega)]
      · have h3i : ¬ (d.secs : Int) * 10000000 + (((d.nanos + 99) / 100 : Nat) : Int) > 2 ^ 63 := by
          exact_mod_cast h3
        rw [if_neg h3i, if_pos (by rw [key]; omega)]
        rw [key]
        push_cast
        ring_nf

/-- C9: the timeout conversions round sub-granularity remainders up to the
platform unit — nanoseconds on Linux (the `timespec` represents the duration
exactly), microseconds on Darwin, 100-ns ticks on NT — and whenever the
duration overflows the kernel representation they yield the value meaning
wait-indefinitely (`None`/null pointer on Linux and NT, `0` on Darwin),
behaving as if no timeout was supplied. -/
theorem timeout_conversion_rounds_up (d : Duration) :
    Linux.convert_timeout none = none
    ∧ ((Linux.convert_timeout (some d)).map Linux.timespecNanos
        = if d.secs > I64_MAX then none else some (durationNanos d))
    ∧ Darwin.convert_timeout_us none = 0
    ∧ (Darwin.convert_timeout_us (some d)
        = if specRoundUpUs d > U32_MAX then 0 else specRoundUpUs d)
    ∧ Windows.convert_timeout_100ns none = none
    ∧ (Windows.convert_timeout_100ns (some d)
        = if specRoundUp100ns d ≤ 2 ^ 63 then some (-(specRoundUp100ns d : Int)) else none) :=
  ⟨rfl, linux_convert_eq d, rfl, darwin_convert_eq d, rfl, windows_convert_eq d⟩

/-! ### Wake return value (C10) -/

/-- C10: the claim fails on the code.  In the Linux and DragonFly adapters
`wake` computes `cmp::max(r as usize, 0)`: the cast happens before the
clamp, so the clamp is a no-op, and a syscall error return of `-1` is
reinterpreted as the count `2^64 - 1` instead of `0` (the Darwin adapter,
which cannot report a count, does return `0`). -/
theorem wake_negative_return_reinterpreted :
    Linux.wakeResult (-1) = 2 ^ 64 - 1
    ∧ Dragonfly.wakeResult (-1) = 2 ^ 64 - 1
    ∧ Linux.wakeResult (-1) ≠ 0
    ∧ Darwin.wakeResult (-1) = 0 :=
  ⟨by decide, by decide, by decide, rfl⟩

/-- Witness for C3 at `cell = 2` (HAS_WAITERS clear), `new = 5`: the store
happens and no wake is performed. -/
theorem store_and_wake_stores_and_wakes_witness :
    (Futex.store_and_wake 2 5).1 = 5 ∧ (Futex.store_and_wake 2 5).2 = false :=
  ⟨(store_and_wake_stores_and_wakes 2 5).1,
   (store_and_wake_stores_and_wakes 2 5).2.2 (by decide)⟩

/-- Counterexample to C8 as stated: at `v = 1` (a reserved bit set) the
public `Waiters::compare_and_wait` (src/src/lib.rs lines 173-175) neither
panics nor rejects the call.  On a cell equal to `0` it masks the reserved
bits off, sets `HAS_WAITERS`, and proceeds to block: after 3 fuel its result
is `outOfFuel` (still waiting, not `panicked` and not an early `exited`),
having performed 3 adapter `wait` calls. -/
theorem compare_and_wait_reserved_bits_not_rejected :
    (1 : Nat) &&& RESERVED_MASK ≠ 0
    ∧ (Lib.compare_and_wait (fun _ => WakeupReason.Unknown) (fun _ => none) 1 0 3).1
        = Futex.CawResult.outOfFuel
    ∧ (Lib.compare_and_wait (fun _ => WakeupReason.Unknown) (fun _ => none) 1 0 3).2 = 3 :=
  ⟨by decide, by decide, by decide⟩
